import Mathlib

set_option maxRecDepth 8000

/-!
Shallow embedding of the claritylabs video stitcher service.

The repository holds two variants of the HTTP server:
* `src/unnamed/part_000` — the primary server (`/stitch`, `/result/:id`,
  in-memory result map with a periodic sweep, `downloadToTmp`, `runFFmpeg`);
  modelled in namespace `Stitcher`.
* `src/server.js` — the legacy variant (its subprocess invoker `run`);
  modelled in namespace `Legacy`.

JavaScript request-body values, the scratch filesystem, the in-memory
result map, the fetch responses and the ffmpeg process outcomes are made
explicit; the handlers are translated statement by statement, threading
the filesystem and the result map as state and recording an event for
every network fetch, subprocess spawn and file deletion.
-/

namespace Stitcher

/-- A JSON/JavaScript value, as far as the `/stitch` handler inspects the
request body: strings, arrays, numbers, booleans and `null`.  A field that
is absent (`undefined`) is modelled as `Option.none` at the field level. -/
inductive JSVal where
  | vstr (s : String)
  | varr (elems : List JSVal)
  | vnum (n : Int)
  | vbool (b : Bool)
  | vnull

/-- JavaScript `String.prototype.startsWith`. -/
def jsStartsWith (s p : String) : Bool :=
  p.data.isPrefixOf s.data

/-- JavaScript truthiness of a request-body value: the test applied by
`if (bad)` and by the `!v` disjuncts of the validation predicates. -/
def JSVal.truthy : JSVal → Bool
  | .vstr s => s != ""
  | .varr _ => true
  | .vnum n => n != 0
  | .vbool b => b
  | .vnull => false

/-- The JavaScript nullish-coalescing operator `a ?? b`: `b` exactly when
`a` is `undefined` (absent) or `null`. -/
def jsCoalesce (a b : Option JSVal) : Option JSVal :=
  match a with
  | none => b
  | some .vnull => b
  | some v => some v

/-- The request body of `POST /stitch`; the handler reads exactly these
four fields (`audioUrl ?? narrationUrl`, `videoUrls ?? videos`). -/
structure ReqBody where
  audioUrl : Option JSVal
  narrationUrl : Option JSVal
  videoUrls : Option JSVal
  videos : Option JSVal

/-- Negation of `!audioUrl || typeof audioUrl !== "string" ||
!audioUrl.startsWith("http")` for a string value: truthy (nonempty) and
starting with `"http"`. -/
def audioStrOk (s : String) : Bool :=
  (s != "") && jsStartsWith s "http"

/-- The narration-URL validation check, over the coalesced field value:
it passes exactly for a truthy string starting with `"http"`. -/
def audioOk : Option JSVal → Bool
  | some (.vstr s) => audioStrOk s
  | _ => false

/-- The per-element test `v => !v || typeof v !== "string" ||
!v.startsWith("http")` used with `videoUrls.find`. -/
def videoElemBad : JSVal → Bool
  | .vstr s => (s == "") || !(jsStartsWith s "http")
  | _ => true

/-- The video-list validation as the code actually enforces it: an array
(`Array.isArray`) of length exactly 3, where the subsequent `if (bad)`
answers 400 only when the element returned by `find` is truthy — so a
falsy invalid entry (`""`, `null`, `0`, `false`) found first slips past
the 400 and the handler proceeds. -/
def videosOk : Option JSVal → Bool
  | some (.varr vs) =>
    (vs.length == 3) &&
      (match vs.find? videoElemBad with
       | some bad => !bad.truthy
       | none => true)
  | _ => false

/-- Acceptance by both validation checks (no 400 answered), over the two
coalesced values. -/
def validResolved (a v : Option JSVal) : Bool :=
  audioOk a && videosOk v

/-- Acceptance by both validation checks (no 400 answered), over a raw
request body. -/
def validBody (b : ReqBody) : Bool :=
  validResolved (jsCoalesce b.audioUrl b.narrationUrl) (jsCoalesce b.videoUrls b.videos)

/-- Read the string out of a `JSVal` known (after validation) to be a
string; `videoUrls[i]` access in the source. -/
def getStr : JSVal → String
  | .vstr s => s
  | _ => ""

/-- Contents of a scratch file: downloaded bytes, the written concat
list text, or an opaque media artifact produced by the external tool. -/
inductive FileContent where
  | bytes (bs : List Nat)
  | text (s : String)
  | media (tag : String)
  deriving DecidableEq

/-- The scratch filesystem (the OS temp directory), path to contents. -/
abbrev FS := List (String × FileContent)

/-- Model of `fs.createWriteStream` / `fs.promises.writeFile`: create or
overwrite the file at `p`. -/
def fsWrite : FS → String → FileContent → FS
  | [], p, c => [(p, c)]
  | (q, d) :: rest, p, c =>
    if q == p then (p, c) :: rest else (q, d) :: fsWrite rest p c

/-- Model of `try \x7b fs.unlinkSync(p) \x7d catch \x7b\x7d`: best-effort deletion, a no-op
when the file is absent. -/
def fsUnlink : FS → String → FS
  | [], _ => []
  | (q, d) :: rest, p =>
    if q == p then rest else (q, d) :: fsUnlink rest p

/-- A Result Entry: `{ filePath, expiresAt }` (milliseconds since epoch). -/
structure ResultMeta where
  filePath : String
  expiresAt : Int
  deriving DecidableEq

/-- The in-memory `results` map, `id -> { filePath, expiresAt }`. -/
abbrev ResultStore := List (String × ResultMeta)

/-- Source constant `RESULT_TTL_MS = 30 * 60 * 1000`. -/
def RESULT_TTL_MS : Int := 30 * 60 * 1000

/-- JavaScript `Map.set`: replace the binding for `id` if present,
otherwise add it. -/
def storeSet : ResultStore → String → ResultMeta → ResultStore
  | [], id, m => [(id, m)]
  | (k, v) :: rest, id, m =>
    if k == id then (id, m) :: rest else (k, v) :: storeSet rest id m

/-- The sweep `cleanupResults()`: for every entry with `expiresAt <= now`, delete
the underlying file (best effort) and remove the entry. -/
def cleanupResults (now : Int) : ResultStore → FS → ResultStore × FS
  | [], fs => ([], fs)
  | (k, m) :: rest, fs =>
    if m.expiresAt ≤ now then
      cleanupResults now rest (fsUnlink fs m.filePath)
    else
      ((k, m) :: (cleanupResults now rest fs).1, (cleanupResults now rest fs).2)

/-- What `fetch(url)` resolved to: HTTP success flag, status, and the
(possibly absent) response body. -/
structure FetchResponse where
  ok : Bool
  status : Nat
  body : Option (List Nat)
  deriving DecidableEq

/-- The outcome of spawning the external tool: either the process could
not be started at all (the `error` event, carrying the OS error code),
or it terminated (the `close` event: exit code or `null`, signal or
`null`, and the accumulated standard output/error text). -/
inductive SpawnOutcome where
  | launchError (code : Option String) (msg : String)
  | closed (code : Option Int) (signal : Option String) (stdout stderr : String)
  deriving DecidableEq

/-- The external world for one request: what each URL fetch resolves to
(`none` means the fetch itself rejected at the network level), and how
the ffmpeg process behaves for a given argument list. -/
structure Env where
  fetchResp : String → Option FetchResponse
  ffmpegOutcome : List String → SpawnOutcome

/-- Value of `os.tmpdir()` plus the separator appended by `path.join`. -/
def tmpdir : String := "/tmp/"

/-- Model of `downloadToTmp(url, filename)`: throws on a non-ok status or a
missing body; otherwise streams the full body into
`path.join(os.tmpdir(), filename)` before returning that path. -/
def downloadToTmp (env : Env) (url : String) (filename : String) (fs : FS) :
    Except String (String × FS) :=
  match env.fetchResp url with
  | none => Except.error ("fetch failed for " ++ url)
  | some r =>
    if !r.ok then
      Except.error ("Failed to download " ++ url ++ " (HTTP " ++ toString r.status ++ ")")
    else
      match r.body with
      | none => Except.error ("No response body for " ++ url)
      | some bs =>
        Except.ok (tmpdir ++ filename, fsWrite fs (tmpdir ++ filename) (FileContent.bytes bs))

/-- JavaScript template rendering of the `close` event's exit code
(`null` when the process was killed by a signal). -/
def jsShowCode : Option Int → String
  | none => "null"
  | some n => toString n

/-- JavaScript template rendering of the `close` event's signal. -/
def jsShowSignal : Option String → String
  | none => "null"
  | some s => s

/-- The rejection message built in `runFFmpeg`'s `close` handler:
`ffmpeg exited code=... signal=...` followed by the captured stderr and
stdout. -/
def ffmpegExitMsg (code : Option Int) (signal : Option String) (stdout stderr : String) :
    String :=
  "ffmpeg exited code=" ++ jsShowCode code ++ " signal=" ++ jsShowSignal signal ++
    "\nSTDERR:\n" ++ stderr ++ "\nSTDOUT:\n" ++ stdout

/-- Model of `runFFmpeg(args)`: the `error` handler rejects with
`spawn ffmpeg failed: <err.code || ""> <err.message>`; the `close`
handler resolves exactly on exit code `0` and otherwise rejects with
`ffmpegExitMsg`. -/
def runFFmpeg (o : SpawnOutcome) : Except String Unit :=
  match o with
  | .launchError c m =>
    Except.error ("spawn ffmpeg failed: " ++ c.getD "" ++ " " ++ m)
  | .closed code signal stdout stderr =>
    if code == some 0 then Except.ok ()
    else Except.error (ffmpegExitMsg code signal stdout stderr)

/-- Scratch file name `v1_${id}.mp4`. -/
def v1Name (id : String) : String := "v1_" ++ id ++ ".mp4"

/-- Scratch file name `v2_${id}.mp4`. -/
def v2Name (id : String) : String := "v2_" ++ id ++ ".mp4"

/-- Scratch file name `v3_${id}.mp4`. -/
def v3Name (id : String) : String := "v3_" ++ id ++ ".mp4"

/-- Scratch file name `narr_${id}.mp3`. -/
def narrName (id : String) : String := "narr_" ++ id ++ ".mp3"

/-- Path of the first downloaded video. -/
def v1Path (id : String) : String := tmpdir ++ v1Name id

/-- Path of the second downloaded video. -/
def v2Path (id : String) : String := tmpdir ++ v2Name id

/-- Path of the third downloaded video. -/
def v3Path (id : String) : String := tmpdir ++ v3Name id

/-- Path of the downloaded narration audio. -/
def narrPath (id : String) : String := tmpdir ++ narrName id

/-- Path of the concat list file `list_${id}.txt` under the temp dir. -/
def listPath (id : String) : String := tmpdir ++ ("list_" ++ id ++ ".txt")

/-- Path of the final output `final_${id}.mp4` under the temp dir. -/
def outPath (id : String) : String := tmpdir ++ ("final_" ++ id ++ ".mp4")

/-- Path of the intermediate base clip `base_${id}.mp4` under the temp dir. -/
def basePath (id : String) : String := tmpdir ++ ("base_" ++ id ++ ".mp4")

/-- Character-by-character translation of
`v.replace(/'/g, "'\\''")`: every single-quote character becomes the
four characters `'\''`, every other character is kept. -/
def escChars : List Char → List Char
  | [] => []
  | c :: cs =>
    (if String.singleton c == "'" then "'\\''".data else [c]) ++ escChars cs

/-- The replacement `v.replace(/'/g, ...)` applied to a whole path string. -/
def escapeSQ (s : String) : String := ⟨escChars s.data⟩

/-- Whether a string contains a single-quote character. -/
def hasSQ (s : String) : Bool :=
  s.data.any (fun c => String.singleton c == "'")

/-- One line of the concat list file: `file '<escaped path>'` and a
newline. -/
def listLine (p : String) : String := "file '" ++ escapeSQ p ++ "'\n"

/-- The full `listTxt` written to the concat list file for the three
downloaded video paths. -/
def listTxt (p1 p2 p3 : String) : String := listLine p1 ++ listLine p2 ++ listLine p3

/-- The `-vf` filter chain of the base build. -/
def vfChain : String :=
  "scale=1080:1920:force_original_aspect_ratio=increase,crop=1080:1920,setsar=1,fps=30"

/-- Argument list `baseArgs` from the source, over the list-file path and
the base output path. -/
def baseArgsV (listP basP : String) : List String :=
  ["-y", "-loglevel", "error", "-f", "concat", "-safe", "0", "-i", listP,
   "-vf", vfChain, "-an", "-c:v", "libx264", "-preset", "veryfast", "-crf", "28",
   "-pix_fmt", "yuv420p", "-movflags", "+faststart", basP]

/-- Argument list `baseArgs` as actually built for job `id`. -/
def baseArgs (id : String) : List String := baseArgsV (listPath id) (basePath id)

/-- Argument list `finalArgs` from the source, over the base-clip path,
the narration path and the final output path. -/
def finalArgsV (basP a1 outP : String) : List String :=
  ["-y", "-loglevel", "error", "-stream_loop", "-1", "-i", basP, "-i", a1,
   "-map", "0:v:0", "-map", "1:a:0", "-shortest",
   "-c:v", "libx264", "-preset", "veryfast", "-crf", "28", "-pix_fmt", "yuv420p",
   "-c:a", "aac", "-b:a", "192k", "-movflags", "+faststart", outP]

/-- Argument list `finalArgs` as actually built for job `id`. -/
def finalArgs (id : String) : List String :=
  finalArgsV (basePath id) (narrPath id) (outPath id)

/-- An observable effect of the pipeline: a network fetch, a subprocess
spawn, or a scratch-file deletion. -/
inductive Ev where
  | fetch (url : String)
  | spawn (args : List String)
  | unlink (path : String)
  deriving DecidableEq

/-- Whether an event is a scratch-file deletion. -/
def Ev.isUnlink : Ev → Bool
  | .fetch _ => false
  | .spawn _ => false
  | .unlink _ => true

/-- The HTTP outcome of `POST /stitch`: a 400 validation rejection, the
catch-all 500 with the originating error message, or the 200 JSON with
the job id. -/
inductive StitchResponse where
  | badRequest (msg : String)
  | serverError (msg : String)
  | okJson (id : String)
  deriving DecidableEq

/-- Whether a response is a 400 validation rejection. -/
def StitchResponse.isBad : StitchResponse → Bool
  | .badRequest _ => true
  | _ => false

/-- Everything one `POST /stitch` execution produced: the response, the
final scratch filesystem, the final result map, and the recorded
effects. -/
structure PipelineResult where
  resp : StitchResponse
  fs : FS
  store : ResultStore
  events : List Ev
  deriving DecidableEq

/-- Scratch filesystem after `fs.promises.writeFile(listPath, listTxt)`. -/
def fsAfterList (fs4 : FS) (id p1 p2 p3 : String) : FS :=
  fsWrite fs4 (listPath id) (FileContent.text (listTxt p1 p2 p3))

/-- Scratch filesystem after the base build succeeded (the tool created
`base_${id}.mp4`). -/
def fsAfterBase (fs4 : FS) (id p1 p2 p3 : String) : FS :=
  fsWrite (fsAfterList fs4 id p1 p2 p3) (basePath id) (FileContent.media "base")

/-- Scratch filesystem at the end of the success path: the final output
exists, and `base`, the three videos, the narration and the list file
have been deleted best-effort. -/
def fsOnSuccess (fs4 : FS) (id p1 p2 p3 a1 : String) : FS :=
  fsUnlink (fsUnlink (fsUnlink (fsUnlink (fsUnlink (fsUnlink
    (fsWrite (fsAfterBase fs4 id p1 p2 p3) (outPath id) (FileContent.media "final"))
    (basePath id)) p1) p2) p3) a1) (listPath id)

/-- The body of `POST /stitch` after validation: download the three
videos and the narration in order, write the concat list, run the base
build, run the final mux, delete the base clip, publish the Result
Entry, delete the remaining scratch files, answer 200; the surrounding
`try`/`catch` turns the first failure into a 500 and performs nothing
else. -/
def runJob (env : Env) (id u1 u2 u3 ua : String) (fs : FS) (store : ResultStore)
    (now : Int) : PipelineResult :=
  match downloadToTmp env u1 (v1Name id) fs with
  | .error e => ⟨.serverError e, fs, store, [.fetch u1]⟩
  | .ok (p1, fs1) =>
    match downloadToTmp env u2 (v2Name id) fs1 with
    | .error e => ⟨.serverError e, fs1, store, [.fetch u1, .fetch u2]⟩
    | .ok (p2, fs2) =>
      match downloadToTmp env u3 (v3Name id) fs2 with
      | .error e => ⟨.serverError e, fs2, store, [.fetch u1, .fetch u2, .fetch u3]⟩
      | .ok (p3, fs3) =>
        match downloadToTmp env ua (narrName id) fs3 with
        | .error e =>
          ⟨.serverError e, fs3, store, [.fetch u1, .fetch u2, .fetch u3, .fetch ua]⟩
        | .ok (a1, fs4) =>
          match runFFmpeg (env.ffmpegOutcome (baseArgs id)) with
          | .error e =>
            ⟨.serverError e, fsAfterList fs4 id p1 p2 p3, store,
             [.fetch u1, .fetch u2, .fetch u3, .fetch ua, .spawn (baseArgs id)]⟩
          | .ok _ =>
            match runFFmpeg (env.ffmpegOutcome (finalArgsV (basePath id) a1 (outPath id))) with
            | .error e =>
              ⟨.serverError e, fsAfterBase fs4 id p1 p2 p3, store,
               [.fetch u1, .fetch u2, .fetch u3, .fetch ua, .spawn (baseArgs id),
                .spawn (finalArgsV (basePath id) a1 (outPath id))]⟩
            | .ok _ =>
              ⟨.okJson id, fsOnSuccess fs4 id p1 p2 p3 a1,
               storeSet store id ⟨outPath id, now + RESULT_TTL_MS⟩,
               [.fetch u1, .fetch u2, .fetch u3, .fetch ua, .spawn (baseArgs id),
                .spawn (finalArgsV (basePath id) a1 (outPath id)),
                .unlink (basePath id), .unlink p1, .unlink p2, .unlink p3,
                .unlink a1, .unlink (listPath id)]⟩

/-- The `POST /stitch` handler over the two already-coalesced field
values: validate the narration URL, then the video list shape, then the
individual video URLs, each rejection a 400 with the source's message
and no other effect; on falling through the checks, run the job.  Note
the source's `if (bad)` tests the truthiness of the element returned by
`find`, not whether `find` found one, so a falsy invalid entry does not
trigger the 400 and the handler proceeds. -/
def stitchResolved (env : Env) (id : String) (a v : Option JSVal) (fs : FS)
    (store : ResultStore) (now : Int) : PipelineResult :=
  match a with
  | some (.vstr s) =>
    if audioStrOk s then
      match v with
      | some (.varr vs) =>
        if vs.length == 3 then
          match vs.find? videoElemBad with
          | some bad =>
            if bad.truthy then
              ⟨.badRequest "One of the video URLs is invalid", fs, store, []⟩
            else
              runJob env id (getStr (vs.getD 0 (.vstr ""))) (getStr (vs.getD 1 (.vstr "")))
                (getStr (vs.getD 2 (.vstr ""))) s fs store now
          | none =>
            runJob env id (getStr (vs.getD 0 (.vstr ""))) (getStr (vs.getD 1 (.vstr "")))
              (getStr (vs.getD 2 (.vstr ""))) s fs store now
        else ⟨.badRequest "videoUrls/videos must be an array of exactly 3 URLs", fs, store, []⟩
      | _ => ⟨.badRequest "videoUrls/videos must be an array of exactly 3 URLs", fs, store, []⟩
    else ⟨.badRequest "audioUrl/narrationUrl missing/invalid", fs, store, []⟩
  | _ => ⟨.badRequest "audioUrl/narrationUrl missing/invalid", fs, store, []⟩

/-- The full `POST /stitch` handler: coalesce the two field spellings,
then proceed as `stitchResolved`. -/
def stitch (env : Env) (id : String) (b : ReqBody) (fs : FS) (store : ResultStore)
    (now : Int) : PipelineResult :=
  stitchResolved env id (jsCoalesce b.audioUrl b.narrationUrl)
    (jsCoalesce b.videoUrls b.videos) fs store now

/-- The outcome of `GET /result/:id`: the 404 used both for expired and
never-stored ids, or a 200 streaming the stored file path. -/
inductive GetOutcome where
  | notFound
  | stream (filePath : String)
  deriving DecidableEq

/-- The `GET /result/:id` handler: `results.get(id)`, 404 when absent,
otherwise stream `meta.filePath`; the map itself is only read, so it is
returned unchanged. -/
def getResult (store : ResultStore) (id : String) : GetOutcome × ResultStore :=
  match List.lookup id store with
  | none => (GetOutcome.notFound, store)
  | some m => (GetOutcome.stream m.filePath, store)

/-- Spec-side definition, used only to compare the spec's words with the
code: "a well-formed absolute URL with an HTTP(S) scheme" is here read
minimally as the scheme `http://` or `https://` followed by a nonempty
remainder. -/
def specWellFormedHttpUrl (s : String) : Bool :=
  (jsStartsWith s "http://" && decide ("http://".length < s.length))
  || (jsStartsWith s "https://" && decide ("https://".length < s.length))

/-- An environment where every fetch succeeds with a one-byte body and
every ffmpeg invocation exits 0. -/
def envOK : Env :=
  ⟨fun _ => some ⟨true, 200, some [7]⟩,
   fun _ => SpawnOutcome.closed (some 0) none "" ""⟩

/-- An environment where only the first video URL downloads; every other
URL answers HTTP 404 with no body. -/
def env2 : Env :=
  ⟨fun u => if u == "http://h/v1.mp4" then some ⟨true, 200, some [1]⟩
            else some ⟨false, 404, none⟩,
   fun _ => SpawnOutcome.closed (some 0) none "" ""⟩

/-- A fully valid request body using the `audioUrl`/`videoUrls`
spellings. -/
def body2 : ReqBody :=
  ⟨some (.vstr "http://h/a.mp3"), none,
   some (.varr [.vstr "http://h/v1.mp4", .vstr "http://h/v2.mp4", .vstr "http://h/v3.mp4"]),
   none⟩

/-- A request body whose narration URL `"httpjunk"` starts with `http`
but is not a well-formed URL. -/
def body3 : ReqBody :=
  ⟨some (.vstr "httpjunk"), none,
   some (.varr [.vstr "http://h/v1.mp4", .vstr "http://h/v2.mp4", .vstr "http://h/v3.mp4"]),
   none⟩

/-- An entirely empty request body. -/
def bodyBad : ReqBody := ⟨none, none, none, none⟩

/-- A request body whose first video entry is the falsy string `""`:
invalid per the element test, yet bypassing the 400 because the source's
`if (bad)` tests the found element's truthiness. -/
def bodyFalsy : ReqBody :=
  ⟨some (.vstr "http://h/a.mp3"), none,
   some (.varr [.vstr "", .vstr "http://h/v2.mp4", .vstr "http://h/v3.mp4"]),
   none⟩

/-- A result store holding one entry that expired at time 100. -/
def c1store : ResultStore := [("a", ⟨"/tmp/final_a.mp4", 100⟩)]

end Stitcher

namespace Legacy

/-- Model of `run(cmd, args)` from src/server.js: only a `close` listener (and a
stderr accumulator) is installed — there is no `error` listener, so when
the spawn itself fails neither `resolve` nor `reject` is ever called;
that unsettled promise is modelled as `none`.  On `close` it resolves
exactly on exit code 0 and otherwise rejects with
`Command failed (<code>): <stderr>`. -/
def run (o : Stitcher.SpawnOutcome) : Option (Except String Unit) :=
  match o with
  | .launchError _ _ => none
  | .closed code _ _ stderr =>
    if code == some 0 then some (Except.ok ())
    else some (Except.error ("Command failed (" ++ Stitcher.jsShowCode code ++ "): " ++ stderr))

end Legacy

open Stitcher

theorem downloadToTmp_ok_path {env : Env} {url fn : String} {fs : FS} {p : String} {fs2 : FS}
    (h : downloadToTmp env url fn fs = Except.ok (p, fs2)) : p = tmpdir ++ fn := by
  unfold downloadToTmp at h
  split at h
  · exact absurd h (by simp)
  · split at h
    · exact absurd h (by simp)
    · split at h
      · exact absurd h (by simp)
      · simp only [Except.ok.injEq, Prod.mk.injEq] at h
        exact h.1.symm

theorem lookup_storeSet_self (s : ResultStore) (id : String) (m : ResultMeta) :
    List.lookup id (storeSet s id m) = some m := by
  induction s with
  | nil => simp [storeSet, List.lookup]
  | cons kv rest ih =>
    obtain ⟨k, v⟩ := kv
    by_cases hk : (k == id) = true
    · simp [storeSet, hk, List.lookup]
    · have hk1 : k ≠ id := by simpa using hk
      have hk2 : (id == k) = false := beq_eq_false_iff_ne.mpr (fun hh => hk1 hh.symm)
      have hk3 : (k == id) = false := beq_eq_false_iff_ne.mpr hk1
      simp [storeSet, hk3, List.lookup, hk2, ih]

theorem lookup_fsWrite_self (fs : FS) (p : String) (c : FileContent) :
    List.lookup p (fsWrite fs p c) = some c := by
  induction fs with
  | nil => simp [fsWrite, List.lookup]
  | cons kv rest ih =>
    obtain ⟨q, d⟩ := kv
    by_cases hq : (q == p) = true
    · simp [fsWrite, hq, List.lookup]
    · have hq1 : q ≠ p := by simpa using hq
      have hq2 : (p == q) = false := beq_eq_false_iff_ne.mpr (fun hh => hq1 hh.symm)
      have hq3 : (q == p) = false := beq_eq_false_iff_ne.mpr hq1
      simp [fsWrite, hq3, List.lookup, hq2, ih]

theorem runJob_spec (env : Env) (id u1 u2 u3 ua : String) (fs : FS) (store : ResultStore)
    (now : Int) :
    ((runJob env id u1 u2 u3 ua fs store now).resp = StitchResponse.okJson id
      ∧ (runJob env id u1 u2 u3 ua fs store now).store
          = storeSet store id ⟨outPath id, now + RESULT_TTL_MS⟩
      ∧ runFFmpeg (env.ffmpegOutcome (finalArgs id)) = Except.ok ()
      ∧ (runJob env id u1 u2 u3 ua fs store now).events
          = [Ev.fetch u1, Ev.fetch u2, Ev.fetch u3, Ev.fetch ua,
             Ev.spawn (baseArgs id), Ev.spawn (finalArgs id),
             Ev.unlink (basePath id), Ev.unlink (v1Path id), Ev.unlink (v2Path id),
             Ev.unlink (v3Path id), Ev.unlink (narrPath id), Ev.unlink (listPath id)])
    ∨ ((∃ m, (runJob env id u1 u2 u3 ua fs store now).resp = StitchResponse.serverError m)
      ∧ (runJob env id u1 u2 u3 ua fs store now).store = store
      ∧ (runJob env id u1 u2 u3 ua fs store now).events.all (fun e => !(e.isUnlink)) = true) := by
  unfold runJob
  split
  next e h1 =>
    right; exact ⟨⟨e, rfl⟩, rfl, by simp [Ev.isUnlink]⟩
  next p1 fs1 h1 =>
    split
    next e h2 =>
      right; exact ⟨⟨e, rfl⟩, rfl, by simp [Ev.isUnlink]⟩
    next p2 fs2 h2 =>
      split
      next e h3 =>
        right; exact ⟨⟨e, rfl⟩, rfl, by simp [Ev.isUnlink]⟩
      next p3 fs3 h3 =>
        split
        next e h4 =>
          right; exact ⟨⟨e, rfl⟩, rfl, by simp [Ev.isUnlink]⟩
        next a1 fs4 h4 =>
          split
          next e h5 =>
            right; exact ⟨⟨e, rfl⟩, rfl, by simp [Ev.isUnlink]⟩
          next u5 h5 =>
            split
            next e h6 =>
              right; exact ⟨⟨e, rfl⟩, rfl, by simp [Ev.isUnlink]⟩
            next u6 h6 =>
              obtain rfl := downloadToTmp_ok_path h1
              obtain rfl := downloadToTmp_ok_path h2
              obtain rfl := downloadToTmp_ok_path h3
              obtain rfl := downloadToTmp_ok_path h4
              left
              exact ⟨rfl, rfl, h6, rfl⟩

theorem stitchResolved_cases (env : Env) (id : String) (a v : Option JSVal) (fs : FS)
    (store : ResultStore) (now : Int) :
    (validResolved a v = false
      ∧ ∃ m, stitchResolved env id a v fs store now
          = ⟨StitchResponse.badRequest m, fs, store, []⟩)
    ∨ (validResolved a v = true
      ∧ ∃ u1 u2 u3 ua, stitchResolved env id a v fs store now
          = runJob env id u1 u2 u3 ua fs store now) := by
  unfold stitchResolved
  match a with
  | none => left; exact ⟨rfl, ⟨_, rfl⟩⟩
  | some (JSVal.varr _) => left; exact ⟨rfl, ⟨_, rfl⟩⟩
  | some (JSVal.vnum _) => left; exact ⟨rfl, ⟨_, rfl⟩⟩
  | some (JSVal.vbool _) => left; exact ⟨rfl, ⟨_, rfl⟩⟩
  | some JSVal.vnull => left; exact ⟨rfl, ⟨_, rfl⟩⟩
  | some (JSVal.vstr s) =>
    dsimp only
    by_cases hs : audioStrOk s = true
    · rw [if_pos hs]
      match v with
      | none => left; exact ⟨by simp [validResolved, audioOk, videosOk], ⟨_, rfl⟩⟩
      | some (JSVal.vstr _) => left; exact ⟨by simp [validResolved, audioOk, videosOk], ⟨_, rfl⟩⟩
      | some (JSVal.vnum _) => left; exact ⟨by simp [validResolved, audioOk, videosOk], ⟨_, rfl⟩⟩
      | some (JSVal.vbool _) => left; exact ⟨by simp [validResolved, audioOk, videosOk], ⟨_, rfl⟩⟩
      | some JSVal.vnull => left; exact ⟨by simp [validResolved, audioOk, videosOk], ⟨_, rfl⟩⟩
      | some (JSVal.varr vs) =>
        dsimp only
        by_cases hlen : (vs.length == 3) = true
        · rw [if_pos hlen]
          cases hfind : vs.find? videoElemBad with
          | some bad =>
            dsimp only
            by_cases htr : bad.truthy = true
            · rw [if_pos htr]
              left
              refine ⟨?_, ⟨_, rfl⟩⟩
              simp [validResolved, audioOk, videosOk, hs, hlen, hfind, htr]
            · rw [if_neg htr]
              right
              refine ⟨?_, ⟨_, _, _, _, rfl⟩⟩
              simp only [Bool.not_eq_true] at htr
              simp [validResolved, audioOk, videosOk, hs, hlen, hfind, htr]
          | none =>
            right
            refine ⟨?_, ⟨_, _, _, _, rfl⟩⟩
            simp [validResolved, audioOk, videosOk, hs, hlen, hfind]
        · rw [if_neg hlen]
          left
          refine ⟨?_, ⟨_, rfl⟩⟩
          simp only [Bool.not_eq_true] at hlen
          simp [validResolved, audioOk, videosOk, hlen]
    · rw [if_neg hs]
      left
      refine ⟨?_, ⟨_, rfl⟩⟩
      simp only [Bool.not_eq_true] at hs
      simp [validResolved, audioOk, hs]

theorem lookup_eq_none_keys (id : String) (s : ResultStore)
    (h : id ∉ s.map Prod.fst) : List.lookup id s = none := by
  induction s with
  | nil => rfl
  | cons kv rest ih =>
    obtain ⟨k, v⟩ := kv
    simp only [List.map_cons, List.mem_cons] at h
    push_neg at h
    have hk : (id == k) = false := beq_eq_false_iff_ne.mpr h.1
    simp [List.lookup, hk, ih h.2]

theorem mem_keys_cleanup {now : Int} {s : ResultStore} {fs : FS} {k : String}
    (h : k ∈ ((cleanupResults now s fs).1.map Prod.fst)) : k ∈ s.map Prod.fst := by
  induction s generalizing fs with
  | nil => simp [cleanupResults] at h
  | cons kv rest ih =>
    obtain ⟨k0, m0⟩ := kv
    by_cases hexp : m0.expiresAt ≤ now
    · rw [cleanupResults, if_pos hexp] at h
      exact List.mem_cons_of_mem _ (ih h)
    · rw [cleanupResults, if_neg hexp] at h
      simp only [List.map_cons, List.mem_cons] at h
      rcases h with h | h
      · simp [h]
      · exact List.mem_cons_of_mem _ (ih h)

theorem lookup_cleanup_expired (fs : FS) {now : Int} {s : ResultStore} {id : String}
    {m : ResultMeta} (hnd : (s.map Prod.fst).Nodup) (hl : List.lookup id s = some m)
    (hexp : m.expiresAt ≤ now) :
    List.lookup id (cleanupResults now s fs).1 = none := by
  induction s generalizing fs with
  | nil => simp [List.lookup] at hl
  | cons kv rest ih =>
    obtain ⟨k0, m0⟩ := kv
    simp only [List.map_cons, List.nodup_cons] at hnd
    by_cases hk : (id == k0) = true
    · have hk1 : id = k0 := eq_of_beq hk
      subst hk1
      have hm0 : m0 = m := by
        simpa [List.lookup] using hl
      subst hm0
      rw [cleanupResults, if_pos hexp]
      refine lookup_eq_none_keys _ _ (fun hmem => ?_)
      exact hnd.1 (mem_keys_cleanup hmem)
    · have hk2 : (id == k0) = false := by simpa using hk
      have hl2 : List.lookup id rest = some m := by
        simpa [List.lookup, hk2] using hl
      by_cases hexp0 : m0.expiresAt ≤ now
      · rw [cleanupResults, if_pos hexp0]
        exact ih _ hnd.2 hl2
      · rw [cleanupResults, if_neg hexp0]
        simp only [List.lookup, hk2]
        exact ih _ hnd.2 hl2

/-- Claim C1, as stated: retrieval of an id whose entry is past expiry
returns the not-found outcome even when the sweep has not run.  False on
the code: the `GET /result/:id` handler never consults the clock, so an
expired entry that the sweep has not yet removed is still streamed. -/
theorem c1_counterexample :
    List.lookup "a" c1store = some ⟨"/tmp/final_a.mp4", 100⟩
    ∧ ((100 : Int) ≤ 200)
    ∧ (getResult c1store "a").1 ≠ GetOutcome.notFound
    ∧ (getResult ([] : ResultStore) "a").1 = GetOutcome.notFound :=
  ⟨rfl, by decide, by decide, rfl⟩

/-- Claim C1 (amended): retrieval returns not-found exactly when the id
is absent from the map; expiry is enforced only by the sweep, so after
`cleanupResults` runs at or after an entry's expiry the id behaves like
one that was never stored. -/
theorem c1_expiry_via_sweep_only (store : ResultStore) (fs : FS) (id : String) (t : Int) :
    ((getResult store id).1 = GetOutcome.notFound ↔ List.lookup id store = none)
    ∧ (∀ m : ResultMeta, (store.map Prod.fst).Nodup → List.lookup id store = some m →
        m.expiresAt ≤ t →
        (getResult (cleanupResults t store fs).1 id).1 = GetOutcome.notFound
        ∧ (getResult (cleanupResults t store fs).1 id).1 = (getResult [] id).1) := by
  constructor
  · unfold getResult
    cases h : List.lookup id store <;> simp [h]
  · intro m hnd hl hexp
    have h := lookup_cleanup_expired fs hnd hl hexp
    unfold getResult
    rw [h]
    exact ⟨rfl, rfl⟩

/-- Witness for `c1_expiry_via_sweep_only` at the one-entry store. -/
theorem c1_witness :
    (getResult (cleanupResults 200 c1store []).1 "a").1 = GetOutcome.notFound :=
  ((c1_expiry_via_sweep_only c1store [] "a" 200).2 ⟨"/tmp/final_a.mp4", 100⟩
    (by decide) rfl (by decide)).1

/-- Claim C2, as stated: on a failed job the sibling scratch files
already fetched are deleted.  False on the code: the `catch` block only
answers 500, so when the second video download fails with HTTP 404 the
already-downloaded first video remains on disk. -/
theorem c2_counterexample :
    (stitch env2 "j" body2 [] [] 0).resp
      = StitchResponse.serverError "Failed to download http://h/v2.mp4 (HTTP 404)"
    ∧ List.lookup (v1Path "j") (stitch env2 "j" body2 [] [] 0).fs
      = some (FileContent.bytes [1]) :=
  ⟨by decide, by decide⟩

/-- Claim C2 (amended): scratch deletion happens only on the success
path; on every failing path no deletion of any scratch file is even
attempted (and on success exactly the base clip, the four downloads and
the list file are deleted). -/
theorem c2_cleanup_only_on_success (env : Env) (id : String) (b : ReqBody) (fs : FS)
    (store : ResultStore) (now : Int) :
    ((stitch env id b fs store now).resp ≠ StitchResponse.okJson id →
      (stitch env id b fs store now).events.all (fun e => !(e.isUnlink)) = true)
    ∧ ((stitch env id b fs store now).resp = StitchResponse.okJson id →
      ∃ u1 u2 u3 ua,
        (stitch env id b fs store now).events
          = [Ev.fetch u1, Ev.fetch u2, Ev.fetch u3, Ev.fetch ua,
             Ev.spawn (baseArgs id), Ev.spawn (finalArgs id),
             Ev.unlink (basePath id), Ev.unlink (v1Path id), Ev.unlink (v2Path id),
             Ev.unlink (v3Path id), Ev.unlink (narrPath id), Ev.unlink (listPath id)]) := by
  rcases stitchResolved_cases env id (jsCoalesce b.audioUrl b.narrationUrl)
      (jsCoalesce b.videoUrls b.videos) fs store now with ⟨_, m, hm⟩ | ⟨_, u1, u2, u3, ua, hm⟩
  · unfold stitch
    rw [hm]
    exact ⟨fun _ => rfl, fun hresp => absurd hresp (by simp)⟩
  · unfold stitch
    rw [hm]
    rcases runJob_spec env id u1 u2 u3 ua fs store now with
      ⟨hresp, _, _, hev⟩ | ⟨⟨m, hresp⟩, _, hev⟩
    · exact ⟨fun hne => absurd hresp hne, fun _ => ⟨u1, u2, u3, ua, hev⟩⟩
    · refine ⟨fun _ => hev, fun hok => ?_⟩
      rw [hresp] at hok
      exact absurd hok (by simp)

/-- Witness for `c2_cleanup_only_on_success` at the failing fetch run. -/
theorem c2_witness :
    (stitch env2 "j" body2 [] [] 0).events.all (fun e => !(e.isUnlink)) = true :=
  (c2_cleanup_only_on_success env2 "j" body2 [] [] 0).1 (by decide)

/-- Claim C3, as stated: any request with a URL that is not a
well-formed absolute HTTP(S) URL is rejected with a validation error
before any network download.  False on the code twice over: the check is
only `startsWith("http")`, so the ill-formed narration value
`"httpjunk"` passes validation and the job proceeds to download it; and
the source's `if (bad)` tests the found element's truthiness, so the
falsy invalid video entry `""` bypasses the 400 entirely — that request
is answered 500 only after a network fetch of `""`, never rejected by
validation. -/
theorem c3_counterexample :
    specWellFormedHttpUrl "httpjunk" = false
    ∧ (stitch envOK "j" body3 [] [] 0).resp = StitchResponse.okJson "j"
    ∧ Ev.fetch "httpjunk" ∈ (stitch envOK "j" body3 [] [] 0).events
    ∧ specWellFormedHttpUrl "" = false
    ∧ (stitch env2 "j" bodyFalsy [] [] 0).resp
        = StitchResponse.serverError "Failed to download  (HTTP 404)"
    ∧ (stitch env2 "j" bodyFalsy [] [] 0).resp.isBad = false
    ∧ Ev.fetch "" ∈ (stitch env2 "j" bodyFalsy [] [] 0).events :=
  ⟨rfl, by decide, by decide, rfl, by decide, by decide, by decide⟩

/-- Claim C3 (amended): a request is answered 400 exactly when the
code's checks reject it — the coalesced narration value is not a truthy
string starting with `"http"`, the video value is not an array of
exactly three entries, or the first entry flagged by the element test
(falsy, non-string, or not starting with `"http"`) is itself truthy —
and such a rejection happens before any fetch, any spawn and any
scratch-file creation.  Two gaps against the spec's wording: strings
merely starting with `"http"` are accepted even when they are not
well-formed URLs, and a falsy flagged entry (for example `""` or
`null`) does not trigger the 400, so that job proceeds to fetch. -/
theorem c3_validation_frame (env : Env) (id : String) (b : ReqBody) (fs : FS)
    (store : ResultStore) (now : Int) :
    (validBody b = false →
      (stitch env id b fs store now).resp.isBad = true
      ∧ (stitch env id b fs store now).fs = fs
      ∧ (stitch env id b fs store now).store = store
      ∧ (stitch env id b fs store now).events = [])
    ∧ (validBody b = true → (stitch env id b fs store now).resp.isBad = false) := by
  rcases stitchResolved_cases env id (jsCoalesce b.audioUrl b.narrationUrl)
      (jsCoalesce b.videoUrls b.videos) fs store now with ⟨hF, m, hm⟩ | ⟨hT, u1, u2, u3, ua, hm⟩
  · constructor
    · intro
      unfold stitch
      rw [hm]
      exact ⟨rfl, rfl, rfl, rfl⟩
    · intro hv
      rw [validBody] at hv
      rw [hv] at hF
      cases hF
  · constructor
    · intro hv
      rw [validBody] at hv
      rw [hv] at hT
      cases hT
    · intro
      unfold stitch
      rw [hm]
      rcases runJob_spec env id u1 u2 u3 ua fs store now with
        ⟨hresp, _⟩ | ⟨⟨m, hresp⟩, _⟩
      · rw [hresp]; rfl
      · rw [hresp]; rfl

/-- Witness for `c3_validation_frame`: the empty body is rejected with
no effects; the valid body is not rejected. -/
theorem c3_witness :
    ((stitch envOK "j" bodyBad [] [] 0).resp.isBad = true
      ∧ (stitch envOK "j" bodyBad [] [] 0).events = [])
    ∧ (stitch envOK "j" body2 [] [] 0).resp.isBad = false :=
  ⟨⟨((c3_validation_frame envOK "j" bodyBad [] [] 0).1 rfl).1,
    ((c3_validation_frame envOK "j" bodyBad [] [] 0).1 rfl).2.2.2⟩,
   (c3_validation_frame envOK "j" body2 [] [] 0).2 rfl⟩

/-- Claim C4: a Result Entry for the job id is inserted only after the
final mux invocation succeeded; on every other path (validation, fetch,
base build or final mux failure) the store holds no entry for the id. -/
theorem c4_publish_only_after_final_mux (env : Env) (id : String) (b : ReqBody) (fs : FS)
    (store : ResultStore) (now : Int) (h0 : List.lookup id store = none) :
    ((stitch env id b fs store now).resp = StitchResponse.okJson id →
      runFFmpeg (env.ffmpegOutcome (finalArgs id)) = Except.ok ()
      ∧ List.lookup id (stitch env id b fs store now).store
          = some ⟨outPath id, now + RESULT_TTL_MS⟩)
    ∧ ((stitch env id b fs store now).resp ≠ StitchResponse.okJson id →
      List.lookup id (stitch env id b fs store now).store = none) := by
  rcases stitchResolved_cases env id (jsCoalesce b.audioUrl b.narrationUrl)
      (jsCoalesce b.videoUrls b.videos) fs store now with ⟨_, m, hm⟩ | ⟨_, u1, u2, u3, ua, hm⟩
  · unfold stitch
    rw [hm]
    exact ⟨fun hresp => absurd hresp (by simp), fun _ => h0⟩
  · unfold stitch
    rw [hm]
    rcases runJob_spec env id u1 u2 u3 ua fs store now with
      ⟨hresp, hst, hmux, _⟩ | ⟨⟨m, hresp⟩, hst, _⟩
    · refine ⟨fun _ => ⟨hmux, ?_⟩, fun hne => absurd hresp hne⟩
      rw [hst]
      exact lookup_storeSet_self store id _
    · refine ⟨fun hok => ?_, fun _ => by rw [hst]; exact h0⟩
      rw [hresp] at hok
      exact absurd hok (by simp)

/-- Witness for `c4_publish_only_after_final_mux` at a fully succeeding
environment. -/
theorem c4_witness :
    runFFmpeg (envOK.ffmpegOutcome (finalArgs "j")) = Except.ok ()
    ∧ List.lookup "j" (stitch envOK "j" body2 [] [] 0).store
        = some ⟨outPath "j", 0 + RESULT_TTL_MS⟩ :=
  (c4_publish_only_after_final_mux envOK "j" body2 [] [] 0 rfl).1 (by decide)

/-- Claim C5: the primary server's `runFFmpeg` signals a launch failure
including the OS error code, but the legacy `run` in `src/server.js`
installs no `error` listener, so on a launch failure (missing ffmpeg
binary, spawn ENOENT) its promise never settles: no launch-failure
error is ever signalled by it.  The code contradicts the documented
intent (the primary variant marks the `error` handler "IMPORTANT: this
catches ffmpeg not found"). -/
theorem c5_launch_failure_outcomes :
    Legacy.run (SpawnOutcome.launchError (some "ENOENT") "spawn ffmpeg ENOENT") = none
    ∧ runFFmpeg (SpawnOutcome.launchError (some "ENOENT") "spawn ffmpeg ENOENT")
        = Except.error "spawn ffmpeg failed: ENOENT spawn ffmpeg ENOENT" :=
  ⟨rfl, rfl⟩

/-- Claim C6: both subprocess invokers report success exactly on exit
code zero; every other termination (non-zero exit or signal, in which
case the `close` event's code is `null`) is reported as a failure whose
message carries the rendered exit code, the signal (primary variant)
and the captured diagnostic output. -/
theorem c6_exit_code_classification (code : Option Int) (signal : Option String)
    (stdout stderr : String) :
    (runFFmpeg (SpawnOutcome.closed code signal stdout stderr) = Except.ok () ↔ code = some 0)
    ∧ (code ≠ some 0 →
        runFFmpeg (SpawnOutcome.closed code signal stdout stderr)
          = Except.error ("ffmpeg exited code=" ++ jsShowCode code ++ " signal="
              ++ jsShowSignal signal ++ "\nSTDERR:\n" ++ stderr ++ "\nSTDOUT:\n" ++ stdout))
    ∧ (Legacy.run (SpawnOutcome.closed code signal stdout stderr) = some (Except.ok ())
        ↔ code = some 0)
    ∧ (code ≠ some 0 →
        Legacy.run (SpawnOutcome.closed code signal stdout stderr)
          = some (Except.error ("Command failed (" ++ jsShowCode code ++ "): " ++ stderr))) := by
  by_cases h : code = some 0
  · subst h
    refine ⟨by simp [runFFmpeg], fun hne => absurd rfl hne, by simp [Legacy.run],
      fun hne => absurd rfl hne⟩
  · have hb : (code == some 0) = false := beq_eq_false_iff_ne.mpr h
    refine ⟨?_, fun _ => ?_, ?_, fun _ => ?_⟩
    · simp [runFFmpeg, hb, h]
    · simp [runFFmpeg, hb, ffmpegExitMsg]
    · simp [Legacy.run, hb, h]
    · simp [Legacy.run, hb]

/-- Witness for `c6_exit_code_classification` at exit code 1. -/
theorem c6_witness :
    runFFmpeg (SpawnOutcome.closed (some 1) none "out" "err")
      = Except.error ("ffmpeg exited code=" ++ jsShowCode (some 1) ++ " signal="
          ++ jsShowSignal none ++ "\nSTDERR:\n" ++ "err" ++ "\nSTDOUT:\n" ++ "out")
    ∧ Legacy.run (SpawnOutcome.closed (some 1) none "out" "err")
      = some (Except.error ("Command failed (" ++ jsShowCode (some 1) ++ "): " ++ "err")) :=
  ⟨(c6_exit_code_classification (some 1) none "out" "err").2.1 (by decide),
   (c6_exit_code_classification (some 1) none "out" "err").2.2.2 (by decide)⟩

theorem escChars_append (l1 l2 : List Char) :
    escChars (l1 ++ l2) = escChars l1 ++ escChars l2 := by
  induction l1 with
  | nil => rfl
  | cons c cs ih => simp [escChars, ih, List.append_assoc]

theorem escChars_id_of_no_sq (l : List Char)
    (h : l.any (fun c => String.singleton c == "'") = false) : escChars l = l := by
  induction l with
  | nil => rfl
  | cons c cs ih =>
    simp only [List.any_cons, Bool.or_eq_false_iff] at h
    simp [escChars, h.1, ih h.2]

theorem escapeSQ_id_of_no_sq (s : String) (h : hasSQ s = false) : escapeSQ s = s := by
  unfold hasSQ at h
  show String.mk (escChars s.data) = s
  rw [escChars_id_of_no_sq s.data h]

/-- Claim C7: each concat list entry is the line `file '<path>'` with a
newline, where every single quote in the path has been replaced by
`'\''` and a quote-free path is written unchanged inside the quotes. -/
theorem c7_concat_list_escaping (p q r a b : String) :
    listLine p = "file '" ++ escapeSQ p ++ "'\n"
    ∧ listTxt p q r = listLine p ++ listLine q ++ listLine r
    ∧ (hasSQ p = false → escapeSQ p = p)
    ∧ escapeSQ (a ++ "'" ++ b) = escapeSQ a ++ "'\\''" ++ escapeSQ b := by
  refine ⟨rfl, rfl, escapeSQ_id_of_no_sq p, ?_⟩
  show String.mk (escChars (a ++ "'" ++ b).data) = _
  have hdata : (a ++ "'" ++ b).data = a.data ++ "'".data ++ b.data := rfl
  rw [hdata, escChars_append, escChars_append]
  rfl

/-- Witness for `c7_concat_list_escaping` on a quote-free path. -/
theorem c7_witness : escapeSQ "ab" = "ab" :=
  (c7_concat_list_escaping "ab" "c" "d" "x" "y").2.2.1 (by decide)

/-- Claim C8: `downloadToTmp` fails whenever the response has a non-ok
status or carries no body; when it succeeds, the returned path is the
temp-dir destination and that file holds the full response body before
the call returns. -/
theorem c8_download_contract (env : Env) (url fn : String) (fs : FS) (r : FetchResponse)
    (hr : env.fetchResp url = some r) :
    ((r.ok = false ∨ r.body = none) →
      ∃ m, downloadToTmp env url fn fs = Except.error m)
    ∧ (∀ p fs2, downloadToTmp env url fn fs = Except.ok (p, fs2) →
      r.ok = true ∧ ∃ bs, r.body = some bs ∧ p = tmpdir ++ fn
        ∧ List.lookup p fs2 = some (FileContent.bytes bs)) := by
  unfold downloadToTmp
  rw [hr]
  constructor
  · rintro (hok | hbody)
    · simp [hok]
    · cases hok : r.ok with
      | false => simp [hok]
      | true => simp [hok, hbody]
  · intro p fs2 h
    obtain ⟨rok, rstatus, rbody⟩ := r
    dsimp only at h
    cases rok with
    | false => simp at h
    | true =>
      cases rbody with
      | none => simp at h
      | some bs =>
        simp only [Bool.not_true, Bool.false_eq_true, if_false, Except.ok.injEq,
          Prod.mk.injEq] at h
        obtain ⟨hp, hfs⟩ := h
        subst hp
        subst hfs
        exact ⟨rfl, bs, rfl, rfl, lookup_fsWrite_self fs (tmpdir ++ fn) (FileContent.bytes bs)⟩

/-- Witness for `c8_download_contract`: a 404 response fails; an ok
response writes the body to the destination. -/
theorem c8_witness :
    (∃ m, downloadToTmp env2 "http://h/v2.mp4" "z.bin" [] = Except.error m)
    ∧ ((true : Bool) = true ∧ ∃ bs, (some [7] : Option (List Nat)) = some bs
        ∧ tmpdir ++ "f.bin" = tmpdir ++ "f.bin"
        ∧ List.lookup (tmpdir ++ "f.bin")
            (fsWrite [] (tmpdir ++ "f.bin") (FileContent.bytes [7]))
            = some (FileContent.bytes bs)) :=
  ⟨(c8_download_contract env2 "http://h/v2.mp4" "z.bin" [] ⟨false, 404, none⟩ rfl).1
     (Or.inl rfl),
   (c8_download_contract envOK "http://x" "f.bin" [] ⟨true, 200, some [7]⟩ rfl).2
     (tmpdir ++ "f.bin") (fsWrite [] (tmpdir ++ "f.bin") (FileContent.bytes [7])) rfl⟩

/-- Claim C9: the narration URL is accepted under `audioUrl` or
`narrationUrl` and the video list under `videoUrls` or `videos`; the
primary spellings take precedence when both are supplied, and both
spellings reach the identical resolved pipeline. -/
theorem c9_field_aliasing (a : String) (vs : List JSVal) (x y : Option JSVal)
    (env : Env) (id : String) (fs : FS) (store : ResultStore) (now : Int) :
    jsCoalesce (some (JSVal.vstr a)) x = some (JSVal.vstr a)
    ∧ jsCoalesce (some (JSVal.varr vs)) y = some (JSVal.varr vs)
    ∧ stitch env id ⟨some (JSVal.vstr a), x, some (JSVal.varr vs), y⟩ fs store now
        = stitchResolved env id (some (JSVal.vstr a)) (some (JSVal.varr vs)) fs store now
    ∧ stitch env id ⟨none, some (JSVal.vstr a), none, some (JSVal.varr vs)⟩ fs store now
        = stitchResolved env id (some (JSVal.vstr a)) (some (JSVal.varr vs)) fs store now :=
  ⟨rfl, rfl, rfl, rfl⟩

/-- Claim C10: `GET /result/:id` never mutates the result store, a
repeated retrieval observes the identical outcome, and a live entry is
streamed at its stored file path. -/
theorem c10_get_readonly (store : ResultStore) (id : String) :
    (getResult store id).2 = store
    ∧ getResult ((getResult store id).2) id = getResult store id
    ∧ ∀ m : ResultMeta, List.lookup id store = some m →
        (getResult store id).1 = GetOutcome.stream m.filePath := by
  have h2 : (getResult store id).2 = store := by
    unfold getResult
    cases List.lookup id store <;> rfl
  refine ⟨h2, by rw [h2], ?_⟩
  intro m hm
  unfold getResult
  rw [hm]

/-- Witness for `c10_get_readonly` at the one-entry store. -/
theorem c10_witness :
    (getResult c1store "a").2 = c1store
    ∧ (getResult c1store "a").1 = GetOutcome.stream "/tmp/final_a.mp4" :=
  ⟨(c10_get_readonly c1store "a").1,
   (c10_get_readonly c1store "a").2.2 ⟨"/tmp/final_a.mp4", 100⟩ rfl⟩
